import Mathlib

/-!
# Anime news API: response normalisation and error classification

A shallow embedding of `src/index.js`: the helper `fetchFromAPI`, the body of the
`POST /search` handler and the body of the `GET /anime/:id` handler.

The decoded tree is the value that `xml2js` yields under the options
`explicitArray: false, mergeAttrs: true`: text, a mapping from names to trees, or a
sequence of trees.  The library calls (`axios.get`, `parseStringPromise`,
`encodeURIComponent`) are parameters of the handlers, bundled in `Env`.
-/

namespace AnimeNewsApi

/-! ## Decoded trees and the JavaScript operations the source applies to them -/

/-- Decoded XML tree: text content, a mapping (attributes merged with children), or a
sequence (a repeated element). -/
inductive Node where
  | text (s : String)
  | obj (fields : List (String × Node))
  | arr (items : List Node)

namespace Node

/-- Property read `v.key`; `none` stands for `undefined`.  The source only reads the names
`ann`, `anime`, `manga`, `warning`, `id`, `name`, `info`, `type`, `_` and `src`, none of
which is an inherited property of a string or of an array. -/
def get : Node → String → Option Node
  | obj fields, key => fields.lookup key
  | text _, _ => none
  | arr _, _ => none

/-- JavaScript truthiness of a present value: only the empty string is falsy. -/
def truthy : Node → Bool
  | text s => !(s == "")
  | obj _ => true
  | arr _ => true

/-- The test `Array.isArray(v)`. -/
def isArray : Node → Bool
  | arr _ => true
  | _ => false

/-- The expression `Array.isArray(v) ? v : [v]`. -/
def arrayOrSingleton : Node → List Node
  | arr items => items
  | v => [v]

/-- The test `v === key` against a string: strict equality holds for that text only. -/
def strictEqString : Node → String → Bool
  | text s, key => s == key
  | _, _ => false

end Node

/-- JavaScript truthiness of a possibly `undefined` value. -/
def jsTruthy : Option Node → Bool
  | none => false
  | some v => v.truthy

/-- A value that may also be `null` or `undefined`. -/
inductive JsValue where
  | null
  | undefined
  | node (n : Node)

/-- The result of a property read as a value. -/
def JsValue.ofRead : Option Node → JsValue
  | none => JsValue.undefined
  | some n => JsValue.node n

/-! ## `fetchFromAPI` -/

/-- The `response` carried by a failed request; `status` is `none` when it is no number. -/
structure ErrorResponse where
  status : Option Nat

/-- What `axios.get` or `parseStringPromise` throws: `error.message`, `error.response`. -/
structure UpstreamError where
  message : String
  response : Option ErrorResponse

/-- Console output of the handlers. -/
inductive LogLine where
  | fetching (url : String)
  | apiError (message : String)
  | apiWarning (warning : Node)

/-- Library calls the handlers depend on.  `parseStringPromise` yields `none` (JavaScript
`null`) for a blank document.  `encodeURIComponent` is total here: it throws on a lone
surrogate only, which a `String` cannot hold. -/
structure Env where
  axiosGet : String → Except UpstreamError String
  parseStringPromise : String → Except UpstreamError (Option Node)
  encodeURIComponent : String → String

/-- The `catch` block of `fetchFromAPI` (lines 27-36): the message of the rethrown error. -/
def fetchErrorMessage (error : UpstreamError) : String :=
  match error.response with
  | some response =>
    if response.status = some 503 then
      "Server is busy (Rate Limit). Please wait a few seconds and try again."
    else if response.status = some 404 then
      "Resource not found."
    else
      "Failed to fetch data from Anime News Network. Please try again."
  | none => "Failed to fetch data from Anime News Network. Please try again."

/-- Observable effects of a call: console lines and the URLs passed to `axios.get`. -/
structure Effects where
  console : List LogLine
  requests : List String

/-- `fetchFromAPI(url)`: the decoded result, or the classified message it throws. -/
def fetchFromAPI (env : Env) (url : String) : Effects × Except String (Option Node) :=
  match env.axiosGet url with
  | .error error =>
    (⟨[.fetching url, .apiError error.message], [url]⟩, .error (fetchErrorMessage error))
  | .ok data =>
    match env.parseStringPromise data with
    | .error error =>
      (⟨[.fetching url, .apiError error.message], [url]⟩, .error (fetchErrorMessage error))
    | .ok result => (⟨[.fetching url], [url]⟩, .ok result)

/-! ## `POST /search` -/

/-- One element of `items` in the search handler. -/
structure SearchItem where
  id : Option Node
  name : Option Node
  type : String

/-- Line 60: `result.ann.anime ? (Array.isArray(..) ? .. : [..]) : []`. -/
def animeList (ann : Node) : List Node :=
  match ann.get "anime" with
  | some anime => if anime.truthy then anime.arrayOrSingleton else []
  | none => []

/-- Line 61: the same coercion for `result.ann.manga`. -/
def mangaList (ann : Node) : List Node :=
  match ann.get "manga" with
  | some manga => if manga.truthy then manga.arrayOrSingleton else []
  | none => []

/-- Lines 55-68: the `items` built from the decoded `result`. -/
def searchItems (result : Node) : List SearchItem :=
  match result.get "ann" with
  | some ann =>
    if ann.truthy then
      (animeList ann).map (fun item => ⟨item.get "id", item.get "name", "anime"⟩) ++
      (mangaList ann).map (fun item => ⟨item.get "id", item.get "name", "manga"⟩)
    else []
  | none => []

/-- Lines 71-73: the warning written to the console, if any. -/
def searchWarning (result : Node) : List LogLine :=
  match result.get "ann" with
  | some ann =>
    if ann.truthy then
      match ann.get "warning" with
      | some warning => if warning.truthy then [.apiWarning warning] else []
      | none => []
    else []
  | none => []

/-- What a handler passes to `res.render`: the view and its locals. -/
inductive Rendered where
  | index (error : Option String)
  | results (results : List SearchItem) (searchQuery : String) (error : Option String)
  | details (title : Node) (type : String) (plot image vintage : JsValue)
      (genres : List (Option Node))
  | detailsError (error : String) (title : String)

/-- A handled request: its effects and the rendered view. -/
structure Outcome where
  effects : Effects
  view : Rendered

/-- Message of the `TypeError` raised by `result.ann` when `result` is `null`. -/
def nullReadMessage : String := "Cannot read properties of null (reading 'ann')"

/-- The handler of `POST /search` (lines 40-84); `query` is `req.body.query`, a string or
`undefined` (`none`). -/
def searchHandler (env : Env) (query : Option String) : Outcome :=
  match query with
  | none => ⟨⟨[], []⟩, .index (some "Please enter a search term.")⟩
  | some q =>
    if q == "" then ⟨⟨[], []⟩, .index (some "Please enter a search term.")⟩
    else
      let apiUrl :=
        "https://cdn.animenewsnetwork.com/encyclopedia/api.xml?title=~" ++
          env.encodeURIComponent q
      match fetchFromAPI env apiUrl with
      | (fx, .error message) => ⟨fx, .index (some message)⟩
      | (fx, .ok none) => ⟨fx, .index (some nullReadMessage)⟩
      | (fx, .ok (some result)) =>
        ⟨⟨fx.console ++ searchWarning result, fx.requests⟩,
          .results (searchItems result) q none⟩

/-! ## `GET /anime/:id` -/

/-- Lines 96-107: the selected `item` (`none` is `null`) and the `type` label. -/
def selectItem (result : Node) : Option Node × String :=
  match result.get "ann" with
  | some ann =>
    if ann.truthy then
      if jsTruthy (ann.get "anime") then (ann.get "anime", "Anime")
      else if jsTruthy (ann.get "manga") then (ann.get "manga", "Manga")
      else (none, "Unknown")
    else (none, "Unknown")
  | none => (none, "Unknown")

/-- The callback `i => i.type === key` of `find` and `filter`. -/
def typeIs (key : String) (i : Node) : Bool :=
  match i.get "type" with
  | some t => t.strictEqString key
  | none => false

/-- Line 123, `found._ || found.src`: the text content if truthy, else the `src` read. -/
def entryValue (found : Node) : JsValue :=
  if jsTruthy (found.get "_") then JsValue.ofRead (found.get "_")
  else JsValue.ofRead (found.get "src")

/-- Lines 117-124: the closure `getInfo` over the selected `item`. -/
def getInfo (item : Node) (key : String) : JsValue :=
  if !(jsTruthy (item.get "info")) then JsValue.null
  else
    match item.get "info" with
    | none => JsValue.null
    | some info =>
      let infos := info.arrayOrSingleton
      match infos.find? (typeIs key) with
      | some found => if found.truthy then entryValue found else JsValue.null
      | none => JsValue.null

/-- Lines 126-130: the closure `getArray` over the selected `item`. -/
def getArray (item : Node) (key : String) : List (Option Node) :=
  if !(jsTruthy (item.get "info")) then []
  else
    match item.get "info" with
    | none => []
    | some info =>
      let infos := info.arrayOrSingleton
      (infos.filter (typeIs key)).map (fun i => i.get "_")

/-- Line 132: `item.name || "Unknown Title"`. -/
def title (item : Node) : Node :=
  match item.get "name" with
  | some name => if name.truthy then name else Node.text "Unknown Title"
  | none => Node.text "Unknown Title"

/-- Line 133. -/
def plot (item : Node) : JsValue := getInfo item "Plot Summary"

/-- Line 134. -/
def image (item : Node) : JsValue := getInfo item "Picture"

/-- Line 135. -/
def vintage (item : Node) : JsValue := getInfo item "Vintage"

/-- Line 136. -/
def genres (item : Node) : List (Option Node) := getArray item "Genres"

/-- Lines 132-146: the record rendered for a selected `item` with label `type`. -/
def detailRecord (item : Node) (type : String) : Rendered :=
  .details (title item) type (plot item) (image item) (vintage item) (genres item)

/-- Lines 96-146: what the detail handler renders for a decoded `result`. -/
def detailView (result : Node) : Rendered :=
  match selectItem result with
  | (some item, type) =>
    if item.truthy then detailRecord item type
    else .detailsError "Title not found." "Not Found"
  | (none, _) => .detailsError "Title not found." "Not Found"

/-- The handler of `GET /anime/:id` (lines 86-151); `id` is `req.params.id`. -/
def detailHandler (env : Env) (id : String) : Outcome :=
  let apiUrl := "https://cdn.animenewsnetwork.com/encyclopedia/api.xml?title=" ++ id
  match fetchFromAPI env apiUrl with
  | (fx, .error message) => ⟨fx, .detailsError message "Error"⟩
  | (fx, .ok none) => ⟨fx, .detailsError nullReadMessage "Error"⟩
  | (fx, .ok (some result)) => ⟨fx, detailView result⟩

/-! ## The specification's vocabulary -/

/-- Coerce to a sequence, in the specification's words: an absent key is the empty
sequence, a singular node a one-element sequence, a sequence itself. -/
def toSequence : Option Node → List Node
  | none => []
  | some (Node.arr items) => items
  | some n => [n]

/-- The specification's `typeTag == key` on an info entry. -/
def hasTypeTag (key : String) (entry : Node) : Bool :=
  match entry.get "type" with
  | some (Node.text s) => s == key
  | _ => false

/-- The specification's `firstMatch(info, typeTag == key)`. -/
def firstMatch (item : Node) (key : String) : Option Node :=
  (toSequence (item.get "info")).find? (hasTypeTag key)

/-- The specification's `allMatches(info, typeTag == key)`. -/
def allMatches (item : Node) (key : String) : List Node :=
  (toSequence (item.get "info")).filter (hasTypeTag key)

/-- The anime elements under the root container, in upstream order. -/
def animeElements (result : Node) : List Node :=
  match result.get "ann" with
  | some ann => toSequence (ann.get "anime")
  | none => []

/-- The manga elements under the root container, in upstream order. -/
def mangaElements (result : Node) : List Node :=
  match result.get "ann" with
  | some ann => toSequence (ann.get "manga")
  | none => []

/-- The search result item the specification assigns to an element of a given kind. -/
def toSearchItem (kind : String) (item : Node) : SearchItem :=
  ⟨item.get "id", item.get "name", kind⟩

/-- A query the specification calls blank: nothing but whitespace. -/
def isBlank (query : String) : Bool := query.toList.all Char.isWhitespace

/-- An upstream that is unreachable, with the identity as URL encoding. -/
def offlineEnv : Env where
  axiosGet := fun _ => .error ⟨"connect ETIMEDOUT", none⟩
  parseStringPromise := fun _ => .ok none
  encodeURIComponent := fun q => q

/-- An upstream whose every answer decodes to the given result, with the identity as
URL encoding. -/
def stubEnv (result : Option Node) : Env where
  axiosGet := fun _ => .ok ""
  parseStringPromise := fun _ => .ok result
  encodeURIComponent := fun q => q

/-- The decoded tree whose root container holds the given keys. -/
def underRoot (fields : List (String × Node)) : Node :=
  .obj [("ann", .obj fields)]

/-! ## Auxiliary facts -/

/-- The callback of the source and the type-tag test of the specification agree. -/
theorem typeIs_eq_hasTypeTag (key : String) : typeIs key = hasTypeTag key := by
  funext i
  unfold typeIs hasTypeTag
  cases h : i.get "type" with
  | none => rfl
  | some t => cases t <;> rfl

/-- Only a mapping carries a type tag, and a mapping is truthy. -/
theorem truthy_of_hasTypeTag (key : String) (i : Node) (h : hasTypeTag key i = true) :
    i.truthy = true := by
  cases i with
  | text s => simp [hasTypeTag, Node.get] at h
  | obj f => rfl
  | arr xs => rfl

/-- A falsy present value is the empty text. -/
theorem eq_empty_text_of_not_truthy (v : Node) (h : v.truthy = false) : v = Node.text "" := by
  cases v with
  | text s => simpa [Node.truthy] using h
  | obj f => simp [Node.truthy] at h
  | arr xs => simp [Node.truthy] at h

/-- `getInfo` is the value of the first info entry with the type tag, `null` without one. -/
theorem getInfo_eq_firstMatch (item : Node) (key : String) :
    getInfo item key =
      match firstMatch item key with
      | some found => entryValue found
      | none => JsValue.null := by
  unfold getInfo firstMatch
  rw [typeIs_eq_hasTypeTag]
  cases hinfo : item.get "info" with
  | none => simp [jsTruthy, toSequence]
  | some info =>
    cases info with
    | text s =>
      by_cases hs : s = ""
      · subst hs
        simp [jsTruthy, Node.truthy, toSequence, hasTypeTag, Node.get]
      · simp [jsTruthy, Node.truthy, hs, toSequence, Node.arrayOrSingleton, hasTypeTag,
          Node.get]
    | obj f =>
      have ht : (Node.obj f).truthy = true := rfl
      simp only [jsTruthy, ht, toSequence, Node.arrayOrSingleton, Bool.not_true,
        Bool.false_eq_true, if_false]
      cases h : List.find? (hasTypeTag key) [Node.obj f] with
      | none => rfl
      | some found =>
        have := truthy_of_hasTypeTag key found (List.find?_some h)
        simp [this]
    | arr xs =>
      have ht : (Node.arr xs).truthy = true := rfl
      simp only [jsTruthy, ht, toSequence, Node.arrayOrSingleton, Bool.not_true,
        Bool.false_eq_true, if_false]
      cases h : List.find? (hasTypeTag key) xs with
      | none => rfl
      | some found =>
        have := truthy_of_hasTypeTag key found (List.find?_some h)
        simp [this]

/-- `getArray` is the text content of all info entries with the type tag, in order. -/
theorem getArray_eq_allMatches (item : Node) (key : String) :
    getArray item key = (allMatches item key).map (fun i => i.get "_") := by
  unfold getArray allMatches
  rw [typeIs_eq_hasTypeTag]
  cases hinfo : item.get "info" with
  | none => simp [jsTruthy, toSequence]
  | some info =>
    cases info with
    | text s =>
      by_cases hs : s = ""
      · subst hs
        simp [jsTruthy, Node.truthy, toSequence, hasTypeTag, Node.get]
      · simp [jsTruthy, Node.truthy, hs, toSequence, Node.arrayOrSingleton, hasTypeTag,
          Node.get]
    | obj f => simp [jsTruthy, Node.truthy, toSequence, Node.arrayOrSingleton]
    | arr xs => simp [jsTruthy, Node.truthy, toSequence, Node.arrayOrSingleton]

/-- A present value other than the empty text is truthy. -/
theorem truthy_of_ne_empty_text (v : Node) (h : v ≠ Node.text "") : v.truthy = true := by
  cases hb : v.truthy with
  | true => rfl
  | false => exact absurd (eq_empty_text_of_not_truthy v hb) h

/-- A value is falsy exactly when it is absent or the empty text. -/
theorem jsTruthy_eq_false_iff (o : Option Node) :
    jsTruthy o = false ↔ (o = none ∨ o = some (Node.text "")) := by
  constructor
  · intro h
    cases o with
    | none => exact Or.inl rfl
    | some v => exact Or.inr (congrArg some (eq_empty_text_of_not_truthy v h))
  · rintro (h | h) <;> subst h <;> rfl

/-- A node with a readable key is a mapping, hence truthy. -/
theorem truthy_of_get (n v : Node) (k : String) (h : n.get k = some v) : n.truthy = true := by
  cases n with
  | text s => simp [Node.get] at h
  | obj f => rfl
  | arr xs => simp [Node.get] at h

/-- The detail view when the anime key is truthy. -/
theorem detailView_anime (result ann anime : Node) (hann : result.get "ann" = some ann)
    (ha : ann.get "anime" = some anime) (ht : anime.truthy = true) :
    detailView result = detailRecord anime "Anime" := by
  have h1 : ann.truthy = true := truthy_of_get ann anime "anime" ha
  have h2 : jsTruthy (ann.get "anime") = true := by rw [ha]; exact ht
  unfold detailView selectItem
  rw [hann]
  simp only [h1, h2, if_true]
  rw [ha]
  simp only [ht, if_true]

/-- The detail view when the anime key is falsy and the manga key truthy. -/
theorem detailView_manga (result ann manga : Node) (hann : result.get "ann" = some ann)
    (ha : jsTruthy (ann.get "anime") = false)
    (hm : ann.get "manga" = some manga) (ht : manga.truthy = true) :
    detailView result = detailRecord manga "Manga" := by
  have h1 : ann.truthy = true := truthy_of_get ann manga "manga" hm
  have h2 : jsTruthy (ann.get "manga") = true := by rw [hm]; exact ht
  unfold detailView selectItem
  rw [hann]
  simp only [h1, h2, ha, if_true, Bool.false_eq_true, if_false]
  rw [hm]
  simp only [ht, if_true]

/-- The detail view when neither key is truthy. -/
theorem detailView_neither (result ann : Node) (hann : result.get "ann" = some ann)
    (ha : jsTruthy (ann.get "anime") = false) (hm : jsTruthy (ann.get "manga") = false) :
    detailView result = .detailsError "Title not found." "Not Found" := by
  unfold detailView selectItem
  rw [hann]
  simp only [ha, hm, Bool.false_eq_true, if_false]
  cases ann.truthy <;> rfl

/-- The detail view without a root container. -/
theorem detailView_no_root (result : Node) (hann : result.get "ann" = none) :
    detailView result = .detailsError "Title not found." "Not Found" := by
  unfold detailView selectItem
  rw [hann]

/-- A truthy read is a present truthy value. -/
theorem exists_of_jsTruthy (o : Option Node) (h : jsTruthy o = true) :
    ∃ v, o = some v ∧ v.truthy = true := by
  cases o with
  | none => simp [jsTruthy] at h
  | some v => exact ⟨v, rfl, h⟩

/-- The coercion of line 60 is the specification's, except on a bare empty text. -/
theorem animeList_eq_toSequence (ann : Node) (h : ann.get "anime" ≠ some (Node.text "")) :
    animeList ann = toSequence (ann.get "anime") := by
  unfold animeList
  generalize ann.get "anime" = o at h
  cases o with
  | none => rfl
  | some v =>
    have ht : v.truthy = true := truthy_of_ne_empty_text v (fun hv => h (congrArg some hv))
    simp only [ht, if_true]
    cases v <;> rfl

/-- The coercion of line 61 is the specification's, except on a bare empty text. -/
theorem mangaList_eq_toSequence (ann : Node) (h : ann.get "manga" ≠ some (Node.text "")) :
    mangaList ann = toSequence (ann.get "manga") := by
  unfold mangaList
  generalize ann.get "manga" = o at h
  cases o with
  | none => rfl
  | some v =>
    have ht : v.truthy = true := truthy_of_ne_empty_text v (fun hv => h (congrArg some hv))
    simp only [ht, if_true]
    cases v <;> rfl

/-- An empty specification sequence is not a bare empty text. -/
theorem ne_empty_text_of_toSequence_nil (o : Option Node) (h : toSequence o = []) :
    o ≠ some (Node.text "") := by
  intro ho
  subst ho
  simp [toSequence] at h

/-- The items of a tree whose root container is a mapping. -/
theorem searchItems_of_ann (result ann : Node) (hann : result.get "ann" = some ann) :
    searchItems result =
      if ann.truthy then
        (animeList ann).map (toSearchItem "anime") ++ (mangaList ann).map (toSearchItem "manga")
      else [] := by
  unfold searchItems
  rw [hann]
  rfl

/-- The items of a root whose first key is anime. -/
theorem searchItems_anime_first (v : Node) (rest : List (String × Node)) :
    searchItems (underRoot (("anime", v) :: rest)) =
      (if v.truthy then v.arrayOrSingleton else []).map (toSearchItem "anime") ++
        (mangaList (.obj rest)).map (toSearchItem "manga") := by
  rfl

/-- The items of a root whose first key is manga. -/
theorem searchItems_manga_first (v : Node) (rest : List (String × Node)) :
    searchItems (underRoot (("manga", v) :: rest)) =
      (animeList (.obj rest)).map (toSearchItem "anime") ++
        (if v.truthy then v.arrayOrSingleton else []).map (toSearchItem "manga") := by
  rfl

/-- A truthy node that is no sequence coerces to the singleton of itself. -/
theorem arrayOrSingleton_of_not_isArray (x : Node) (h : x.isArray = false) :
    x.arrayOrSingleton = [x] := by
  cases x with
  | text s => rfl
  | obj f => rfl
  | arr xs => simp [Node.isArray] at h

/-- Mapping a list keeps each member at its position. -/
theorem getElem?_map_middle {α β : Type} (f : α → β) (pre post : List α) (x : α) :
    ((pre ++ x :: post).map f)[pre.length]? = some (f x) := by
  rw [List.getElem?_map, List.getElem?_append_right (Nat.le_refl _)]
  simp

/-- `fetchFromAPI` passes its URL to `axios.get` exactly once. -/
theorem fetchFromAPI_requests (env : Env) (url : String) :
    (fetchFromAPI env url).1.requests = [url] := by
  unfold fetchFromAPI
  split
  · rfl
  · split <;> rfl

/-! ## Error classification -/

/-- C4: for an upstream failure, status 503 gives the server-busy message, status 404 the
resource-not-found message, any other status or no response at all the generic retry
message; the message does not depend on the raw error text, and it is what `fetchFromAPI`
throws when the request fails. -/
theorem fetch_error_classification (error : UpstreamError) :
    (∀ r, error.response = some r → r.status = some 503 →
      fetchErrorMessage error =
        "Server is busy (Rate Limit). Please wait a few seconds and try again.") ∧
    (∀ r, error.response = some r → r.status = some 404 →
      fetchErrorMessage error = "Resource not found.") ∧
    (∀ r, error.response = some r → r.status ≠ some 503 → r.status ≠ some 404 →
      fetchErrorMessage error =
        "Failed to fetch data from Anime News Network. Please try again.") ∧
    (error.response = none →
      fetchErrorMessage error =
        "Failed to fetch data from Anime News Network. Please try again.") ∧
    (∀ raw, fetchErrorMessage ⟨raw, error.response⟩ = fetchErrorMessage error) ∧
    (∀ env url, env.axiosGet url = .error error →
      (fetchFromAPI env url).2 = .error (fetchErrorMessage error)) := by
  refine ⟨?_, ?_, ?_, ?_, ?_, ?_⟩
  · intro r hr hs
    simp [fetchErrorMessage, hr, hs]
  · intro r hr hs
    simp [fetchErrorMessage, hr, hs]
  · intro r hr h1 h2
    simp [fetchErrorMessage, hr, h1, h2]
  · intro hr
    simp [fetchErrorMessage, hr]
  · intro raw
    simp [fetchErrorMessage]
  · intro env url h
    simp [fetchFromAPI, h]

/-- Instances of C4: statuses 503, 404 and 500, and a failure without response. -/
theorem fetch_error_classification_witness :
    fetchErrorMessage ⟨"Request failed with status code 503", some ⟨some 503⟩⟩ =
      "Server is busy (Rate Limit). Please wait a few seconds and try again." ∧
    fetchErrorMessage ⟨"Request failed with status code 404", some ⟨some 404⟩⟩ =
      "Resource not found." ∧
    fetchErrorMessage ⟨"Request failed with status code 500", some ⟨some 500⟩⟩ =
      "Failed to fetch data from Anime News Network. Please try again." ∧
    fetchErrorMessage ⟨"getaddrinfo ENOTFOUND", none⟩ =
      "Failed to fetch data from Anime News Network. Please try again." ∧
    (fetchFromAPI offlineEnv "https://cdn.animenewsnetwork.com/").2 =
      .error (fetchErrorMessage ⟨"connect ETIMEDOUT", none⟩) :=
  ⟨(fetch_error_classification ⟨"Request failed with status code 503", some ⟨some 503⟩⟩).1
      ⟨some 503⟩ rfl rfl,
   (fetch_error_classification ⟨"Request failed with status code 404", some ⟨some 404⟩⟩).2.1
      ⟨some 404⟩ rfl rfl,
   (fetch_error_classification ⟨"Request failed with status code 500", some ⟨some 500⟩⟩).2.2.1
      ⟨some 500⟩ rfl (by decide) (by decide),
   (fetch_error_classification ⟨"getaddrinfo ENOTFOUND", none⟩).2.2.2.1 rfl,
   (fetch_error_classification ⟨"connect ETIMEDOUT", none⟩).2.2.2.2.2 offlineEnv
      "https://cdn.animenewsnetwork.com/" rfl⟩

/-! ## Query validation -/

/-- C10, as stated, fails: the blank query of one space passes the check `!query` and the
handler calls the upstream once. -/
theorem blank_query_reaches_network :
    isBlank " " = true ∧
    (searchHandler offlineEnv (some " ")).effects.requests =
      ["https://cdn.animenewsnetwork.com/encyclopedia/api.xml?title=~ "] := by
  constructor
  · decide
  · rfl

/-- C10, amended: a missing or empty query is rejected with the validation message and
without any request or console output; every other query, blank ones included, leads to
exactly one request, for the search URL of that query. -/
theorem empty_query_rejected (env : Env) (query : Option String) :
    ((query = none ∨ query = some "") →
      searchHandler env query = ⟨⟨[], []⟩, .index (some "Please enter a search term.")⟩) ∧
    (∀ q, query = some q → q ≠ "" →
      (searchHandler env query).effects.requests =
        ["https://cdn.animenewsnetwork.com/encyclopedia/api.xml?title=~" ++
          env.encodeURIComponent q]) := by
  constructor
  · rintro (h | h) <;> simp [h, searchHandler]
  · intro q hq hne
    subst hq
    simp only [searchHandler, beq_iff_eq, hne, if_false]
    have h := fetchFromAPI_requests env
      ("https://cdn.animenewsnetwork.com/encyclopedia/api.xml?title=~" ++
        env.encodeURIComponent q)
    revert h
    generalize fetchFromAPI env _ = r
    intro h
    rcases r with ⟨fx, _ | _ | _⟩ <;> exact h

/-- Instance of the amended C10 at the empty query and at a one-letter query. -/
theorem empty_query_rejected_witness :
    searchHandler offlineEnv (some "") =
        ⟨⟨[], []⟩, .index (some "Please enter a search term.")⟩ ∧
    (searchHandler offlineEnv (some "a")).effects.requests =
        ["https://cdn.animenewsnetwork.com/encyclopedia/api.xml?title=~" ++
          offlineEnv.encodeURIComponent "a"] :=
  ⟨(empty_query_rejected offlineEnv (some "")).1 (Or.inr rfl),
   (empty_query_rejected offlineEnv (some "a")).2 "a" rfl (by decide)⟩

/-! ## Detail normalisation: info entries -/

/-- C6: genres is the text content of exactly the info entries tagged "Genres", in
upstream order and without deduplication, for a bare info node as for a sequence; it is
empty without info or without a Genres entry; two Genres entries Comedy and Drama give
both, in that order. -/
theorem genres_all_matches (item : Node) :
    genres item = (allMatches item "Genres").map (fun i => i.get "_") ∧
    (item.get "info" = none → genres item = []) ∧
    (allMatches item "Genres" = [] → genres item = []) ∧
    (∀ e rest, e.isArray = false →
      genres (.obj (("info", e) :: rest)) = genres (.obj (("info", .arr [e]) :: rest))) ∧
    genres (.obj [("info", .arr [.obj [("type", .text "Genres"), ("_", .text "Comedy")],
        .obj [("type", .text "Genres"), ("_", .text "Drama")]])]) =
      [some (.text "Comedy"), some (.text "Drama")] := by
  refine ⟨getArray_eq_allMatches item "Genres", ?_, ?_, ?_, ?_⟩
  · intro h
    simp [genres, getArray, h, jsTruthy]
  · intro h
    simp [genres, getArray_eq_allMatches, h]
  · intro e rest he
    simp only [genres, getArray_eq_allMatches, allMatches]
    cases e with
    | text s => rfl
    | obj f => rfl
    | arr xs => simp [Node.isArray] at he
  · rfl

/-- Instance of C6: a bare Genres entry, and an item without info. -/
theorem genres_all_matches_witness :
    genres (.obj [("info", .obj [("type", .text "Genres"), ("_", .text "Comedy")])]) =
      genres (.obj [("info", .arr [.obj [("type", .text "Genres"), ("_", .text "Comedy")]])]) ∧
    genres (.obj [("name", .text "Naruto")]) = [] :=
  ⟨(genres_all_matches (.obj [])).2.2.2.1
      (.obj [("type", .text "Genres"), ("_", .text "Comedy")]) [] rfl,
   (genres_all_matches (.obj [("name", .text "Naruto")])).2.1 rfl⟩

/-- C7: when the first info entry tagged "Picture" has a src attribute and no text
content, the image is that src attribute, for a bare info node as for a sequence. -/
theorem picture_src (item e src : Node) (hfound : firstMatch item "Picture" = some e)
    (htext : e.get "_" = none) (hsrc : e.get "src" = some src) :
    image item = JsValue.node src := by
  simp [image, getInfo_eq_firstMatch, hfound, entryValue, htext, hsrc, jsTruthy,
    JsValue.ofRead]

/-- Instance of C7: the entry of the specification, as a bare info node and as the second
entry of a sequence. -/
theorem picture_src_witness :
    image (.obj [("info", .obj [("type", .text "Picture"), ("src", .text "http://x/img.jpg")])]) =
      JsValue.node (.text "http://x/img.jpg") ∧
    image (.obj [("info", .arr [.obj [("type", .text "Vintage"), ("_", .text "2002")],
      .obj [("type", .text "Picture"), ("src", .text "http://x/img.jpg")]])]) =
      JsValue.node (.text "http://x/img.jpg") :=
  ⟨picture_src _ (.obj [("type", .text "Picture"), ("src", .text "http://x/img.jpg")])
      (.text "http://x/img.jpg") rfl rfl rfl,
   picture_src _ (.obj [("type", .text "Picture"), ("src", .text "http://x/img.jpg")])
      (.text "http://x/img.jpg") rfl rfl rfl⟩

/-- C8: plot, image and vintage are each computed from the first info entry carrying the
type tag alone (`null` when there is none); the entries after it never change the value,
also when the first one yields no value. -/
theorem first_occurrence_wins (item : Node) :
    (plot item = match firstMatch item "Plot Summary" with
      | some found => entryValue found
      | none => JsValue.null) ∧
    (image item = match firstMatch item "Picture" with
      | some found => entryValue found
      | none => JsValue.null) ∧
    (vintage item = match firstMatch item "Vintage" with
      | some found => entryValue found
      | none => JsValue.null) ∧
    (∀ (key : String) (rest : List (String × Node)) (pre post other : List Node) (e : Node),
      (∀ p ∈ pre, hasTypeTag key p = false) → hasTypeTag key e = true →
      getInfo (.obj (("info", .arr (pre ++ e :: post)) :: rest)) key = entryValue e ∧
      getInfo (.obj (("info", .arr (pre ++ e :: post)) :: rest)) key =
        getInfo (.obj (("info", .arr (pre ++ e :: other)) :: rest)) key) := by
  refine ⟨getInfo_eq_firstMatch item _, getInfo_eq_firstMatch item _,
    getInfo_eq_firstMatch item _, ?_⟩
  intro key rest pre post other e hpre he
  have hfind : ∀ tail : List Node,
      firstMatch (.obj (("info", .arr (pre ++ e :: tail)) :: rest)) key = some e := by
    intro tail
    have hget : Node.get (.obj (("info", .arr (pre ++ e :: tail)) :: rest)) "info" =
        some (.arr (pre ++ e :: tail)) := by
      simp [Node.get, List.lookup]
    simp only [firstMatch, hget, toSequence]
    rw [List.find?_append]
    have hnone : List.find? (hasTypeTag key) pre = none := by
      rw [List.find?_eq_none]
      intro p hp
      simp [hpre p hp]
    simp [hnone, List.find?, he]
  rw [getInfo_eq_firstMatch, getInfo_eq_firstMatch, hfind post, hfind other]
  exact ⟨rfl, rfl⟩

/-- Instance of C8: the first Vintage entry has neither text nor src, so vintage is
`undefined` whatever follows it. -/
theorem first_occurrence_wins_witness :
    getInfo (.obj [("info", .arr ([] ++ .obj [("type", .text "Vintage")] ::
      [.obj [("type", .text "Vintage"), ("_", .text "2002")]]))]) "Vintage" =
      entryValue (.obj [("type", .text "Vintage")]) ∧
    entryValue (.obj [("type", .text "Vintage")]) = JsValue.undefined :=
  ⟨((first_occurrence_wins (.obj [])).2.2.2 "Vintage" [] []
      [.obj [("type", .text "Vintage"), ("_", .text "2002")]] []
      (.obj [("type", .text "Vintage")]) (by simp) rfl).1, rfl⟩

/-- C9, as stated, fails: a Picture entry with text content yields that text, not its src
attribute, and a Plot Summary entry without text content yields its src attribute. -/
theorem picture_text_shadows_src :
    firstMatch (.obj [("info", .obj [("type", .text "Picture"), ("_", .text "cover"),
        ("src", .text "http://x/img.jpg")])]) "Picture" =
      some (.obj [("type", .text "Picture"), ("_", .text "cover"),
        ("src", .text "http://x/img.jpg")]) ∧
    image (.obj [("info", .obj [("type", .text "Picture"), ("_", .text "cover"),
        ("src", .text "http://x/img.jpg")])]) = JsValue.node (.text "cover") ∧
    image (.obj [("info", .obj [("type", .text "Picture"), ("_", .text "cover"),
        ("src", .text "http://x/img.jpg")])]) ≠ JsValue.node (.text "http://x/img.jpg") ∧
    plot (.obj [("info", .obj [("type", .text "Plot Summary"), ("src", .text "p.txt")])]) =
      JsValue.node (.text "p.txt") := by
  refine ⟨rfl, rfl, ?_, rfl⟩
  intro h
  have h2 : JsValue.node (.text "cover") = JsValue.node (.text "http://x/img.jpg") := h
  injection h2 with h3
  injection h3 with h4
  exact absurd h4 (by decide)

/-- C9, amended: each of image, plot and vintage is the text content of the matched entry
when that text is present and non-empty, and otherwise the src attribute of the matched
entry; so the image is the src attribute when the Picture entry has no text, and plot
and vintage are the text content when the entry has text. -/
theorem text_then_src (item e : Node) (key : String) (hkey : firstMatch item key = some e) :
    (jsTruthy (e.get "_") = true → getInfo item key = JsValue.ofRead (e.get "_")) ∧
    (jsTruthy (e.get "_") = false → getInfo item key = JsValue.ofRead (e.get "src")) ∧
    (key = "Picture" → e.get "_" = none → image item = JsValue.ofRead (e.get "src")) ∧
    (key = "Plot Summary" → jsTruthy (e.get "_") = true →
      plot item = JsValue.ofRead (e.get "_")) ∧
    (key = "Vintage" → jsTruthy (e.get "_") = true →
      vintage item = JsValue.ofRead (e.get "_")) := by
  have h := getInfo_eq_firstMatch item key
  rw [hkey] at h
  refine ⟨?_, ?_, ?_, ?_, ?_⟩
  · intro ht
    simp [h, entryValue, ht]
  · intro ht
    simp [h, entryValue, ht]
  · intro hk hn
    subst hk
    simp [image, h, entryValue, hn, jsTruthy]
  · intro hk ht
    subst hk
    simp [plot, h, entryValue, ht]
  · intro hk ht
    subst hk
    simp [vintage, h, entryValue, ht]

/-- Instance of the amended C9: a Plot Summary entry with text and src yields the text. -/
theorem text_then_src_witness :
    plot (.obj [("info", .obj [("type", .text "Plot Summary"), ("_", .text "A ninja."),
      ("src", .text "p.txt")])]) = JsValue.ofRead (some (.text "A ninja.")) :=
  (text_then_src
    (.obj [("info", .obj [("type", .text "Plot Summary"), ("_", .text "A ninja."),
      ("src", .text "p.txt")])])
    (.obj [("type", .text "Plot Summary"), ("_", .text "A ninja."), ("src", .text "p.txt")])
    "Plot Summary" rfl).2.2.2.1 rfl rfl

/-! ## Detail normalisation: item selection -/

/-- C5, as stated, fails: the root holds an anime key (an empty element, decoded as the
empty text), yet the handler answers "Title not found."; with a manga beside it, the
record is a Manga one. -/
theorem empty_anime_not_selected :
    (Node.get (.obj [("anime", .text "")]) "anime").isSome = true ∧
    detailView (.obj [("ann", .obj [("anime", .text "")])]) =
      .detailsError "Title not found." "Not Found" ∧
    detailView (.obj [("ann", .obj [("anime", .text ""),
        ("manga", .obj [("name", .text "Akira")])])]) =
      detailRecord (.obj [("name", .text "Akira")]) "Manga" :=
  ⟨rfl, rfl, rfl⟩

/-- C5, amended: the record is an Anime one, built from the anime node, whenever the root
holds an anime key that is not the empty text (whatever the manga key holds); a Manga
one, built from the manga node, when the anime key is absent or the empty text and the
manga key holds something other than the empty text; and the answer is "Title not found."
exactly when there is no root container or neither key holds anything but the empty
text. -/
theorem item_selection (result : Node) :
    (∀ ann anime, result.get "ann" = some ann → ann.get "anime" = some anime →
      anime ≠ .text "" → detailView result = detailRecord anime "Anime") ∧
    (∀ ann manga, result.get "ann" = some ann →
      (ann.get "anime" = none ∨ ann.get "anime" = some (.text "")) →
      ann.get "manga" = some manga → manga ≠ .text "" →
      detailView result = detailRecord manga "Manga") ∧
    (detailView result = .detailsError "Title not found." "Not Found" ↔
      (result.get "ann" = none ∨
        ∃ ann, result.get "ann" = some ann ∧
          (ann.get "anime" = none ∨ ann.get "anime" = some (.text "")) ∧
          (ann.get "manga" = none ∨ ann.get "manga" = some (.text "")))) := by
  refine ⟨?_, ?_, ?_⟩
  · intro ann anime hann hanime hne
    exact detailView_anime result ann anime hann hanime (truthy_of_ne_empty_text anime hne)
  · intro ann manga hann hanime hmanga hne
    exact detailView_manga result ann manga hann ((jsTruthy_eq_false_iff _).2 hanime) hmanga
      (truthy_of_ne_empty_text manga hne)
  · constructor
    · intro h
      cases hann : result.get "ann" with
      | none => exact Or.inl rfl
      | some ann =>
        refine Or.inr ⟨ann, rfl, ?_, ?_⟩
        · rw [← jsTruthy_eq_false_iff]
          cases ha : jsTruthy (ann.get "anime") with
          | false => rfl
          | true =>
            obtain ⟨anime, h1, h2⟩ := exists_of_jsTruthy _ ha
            rw [detailView_anime result ann anime hann h1 h2] at h
            simp [detailRecord] at h
        · rw [← jsTruthy_eq_false_iff]
          cases hm : jsTruthy (ann.get "manga") with
          | false => rfl
          | true =>
            obtain ⟨manga, h1, h2⟩ := exists_of_jsTruthy _ hm
            cases ha : jsTruthy (ann.get "anime") with
            | false =>
              rw [detailView_manga result ann manga hann ha h1 h2] at h
              simp [detailRecord] at h
            | true =>
              obtain ⟨anime, h3, h4⟩ := exists_of_jsTruthy _ ha
              rw [detailView_anime result ann anime hann h3 h4] at h
              simp [detailRecord] at h
    · rintro (h | ⟨ann, hann, ha, hm⟩)
      · exact detailView_no_root result h
      · exact detailView_neither result ann hann ((jsTruthy_eq_false_iff _).2 ha)
          ((jsTruthy_eq_false_iff _).2 hm)

/-- Instance of the amended C5: anime wins over manga when both are present. -/
theorem item_selection_witness :
    detailView (.obj [("ann", .obj [("anime", .obj [("name", .text "Naruto")]),
        ("manga", .obj [("name", .text "Akira")])])]) =
      detailRecord (.obj [("name", .text "Naruto")]) "Anime" :=
  (item_selection (.obj [("ann", .obj [("anime", .obj [("name", .text "Naruto")]),
        ("manga", .obj [("name", .text "Akira")])])])).1
    (.obj [("anime", .obj [("name", .text "Naruto")]),
        ("manga", .obj [("name", .text "Akira")])])
    (.obj [("name", .text "Naruto")]) rfl rfl (by intro h; cases h)

/-! ## Search normalisation -/

/-- C1, as stated, fails: a root with one manga element, an empty one decoded as the empty
text, holds 0 + 1 elements, and the result has none. -/
theorem empty_element_dropped :
    (animeElements (.obj [("ann", .obj [("manga", .text "")])])).length +
        (mangaElements (.obj [("ann", .obj [("manga", .text "")])])).length = 1 ∧
    (searchItems (.obj [("ann", .obj [("manga", .text "")])])).length = 0 :=
  ⟨rfl, rfl⟩

/-- C1, amended: when neither the anime key nor the manga key of the root holds a bare
empty text, the result is the N anime elements in upstream order, each mapped to its id
and name with type anime, followed by the M manga elements in upstream order, each
mapped to its id and name with type manga: N + M items, none dropped, merged or moved. -/
theorem search_order (result : Node)
    (hanime : ∀ ann, result.get "ann" = some ann → ann.get "anime" ≠ some (.text ""))
    (hmanga : ∀ ann, result.get "ann" = some ann → ann.get "manga" ≠ some (.text "")) :
    searchItems result =
      (animeElements result).map (fun item => ⟨item.get "id", item.get "name", "anime"⟩) ++
      (mangaElements result).map (fun item => ⟨item.get "id", item.get "name", "manga"⟩) ∧
    (searchItems result).length =
      (animeElements result).length + (mangaElements result).length := by
  have key : searchItems result =
      (animeElements result).map (fun item => ⟨item.get "id", item.get "name", "anime"⟩) ++
      (mangaElements result).map (fun item => ⟨item.get "id", item.get "name", "manga"⟩) := by
    cases hann : result.get "ann" with
    | none => simp [searchItems, animeElements, mangaElements, hann]
    | some ann =>
      rw [searchItems_of_ann result ann hann]
      simp only [animeElements, mangaElements, hann]
      cases ht : ann.truthy with
      | false =>
        rw [eq_empty_text_of_not_truthy ann ht]
        rfl
      | true =>
        simp only [if_true]
        rw [animeList_eq_toSequence _ (hanime ann hann),
          mangaList_eq_toSequence _ (hmanga ann hann)]
        rfl
  refine ⟨key, ?_⟩
  rw [key]
  simp

/-- Instance of the amended C1: two anime in a sequence and one bare manga. -/
theorem search_order_witness :
    searchItems (.obj [("ann", .obj [
        ("anime", .arr [.obj [("id", .text "1"), ("name", .text "Naruto")],
                        .obj [("id", .text "2"), ("name", .text "Bleach")]]),
        ("manga", .obj [("id", .text "3"), ("name", .text "Akira")])])]) =
      [⟨some (.text "1"), some (.text "Naruto"), "anime"⟩,
       ⟨some (.text "2"), some (.text "Bleach"), "anime"⟩,
       ⟨some (.text "3"), some (.text "Akira"), "manga"⟩] :=
  (search_order (.obj [("ann", .obj [
        ("anime", .arr [.obj [("id", .text "1"), ("name", .text "Naruto")],
                        .obj [("id", .text "2"), ("name", .text "Bleach")]]),
        ("manga", .obj [("id", .text "3"), ("name", .text "Akira")])])])
    (by intro ann h; cases h; intro h2; cases h2)
    (by intro ann h; cases h; intro h2; cases h2)).1

/-- C3: the result is the empty sequence when the tree has no root container or when its
root holds zero anime and zero manga elements, as for a root with only a warning key;
two roots that differ in the warning key alone give the same result; and the handler
renders the results view with these items and no error. -/
theorem empty_search_no_error (result : Node) :
    (result.get "ann" = none → searchItems result = []) ∧
    (animeElements result = [] → mangaElements result = [] → searchItems result = []) ∧
    (∀ warning, searchItems (underRoot [("warning", warning)]) = []) ∧
    (∀ other f g, result.get "ann" = some (.obj f) → other.get "ann" = some (.obj g) →
      (∀ k, k ≠ "warning" → f.lookup k = g.lookup k) →
      searchItems other = searchItems result) ∧
    (∀ env q, q ≠ "" →
      (fetchFromAPI env ("https://cdn.animenewsnetwork.com/encyclopedia/api.xml?title=~" ++
        env.encodeURIComponent q)).2 = .ok (some result) →
      (searchHandler env (some q)).view = .results (searchItems result) q none) := by
  refine ⟨?_, ?_, ?_, ?_, ?_⟩
  · intro h
    simp [searchItems, h]
  · intro ha hm
    cases hann : result.get "ann" with
    | none => simp [searchItems, hann]
    | some ann =>
      simp only [animeElements, mangaElements, hann] at ha hm
      rw [searchItems_of_ann result ann hann,
        animeList_eq_toSequence ann (ne_empty_text_of_toSequence_nil _ ha),
        mangaList_eq_toSequence ann (ne_empty_text_of_toSequence_nil _ hm), ha, hm]
      simp
  · intro warning
    rfl
  · intro other f g hf hg hagree
    have h1 : (Node.obj g).get "anime" = (Node.obj f).get "anime" :=
      (hagree "anime" (by decide)).symm
    have h2 : (Node.obj g).get "manga" = (Node.obj f).get "manga" :=
      (hagree "manga" (by decide)).symm
    rw [searchItems_of_ann result _ hf, searchItems_of_ann other _ hg]
    simp only [animeList, mangaList, h1, h2]
    rfl
  · intro env q hq hfetch
    simp only [searchHandler, beq_iff_eq, hq, if_false]
    revert hfetch
    generalize fetchFromAPI env _ = r
    intro hfetch
    rcases r with ⟨fx, r2⟩
    simp only at hfetch
    subst hfetch
    rfl

/-- Instance of C3: an upstream answering with a warning only; the view is the results
view with no item and no error. -/
theorem empty_search_no_error_witness :
    (searchHandler (stubEnv (some (underRoot [("warning", .text "ignoring title")])))
        (some "naruto")).view =
      .results (searchItems (underRoot [("warning", .text "ignoring title")])) "naruto" none ∧
    searchItems (underRoot [("warning", .text "ignoring title")]) = [] ∧
    searchItems (underRoot [("warning", .text "ignoring title")]) =
      searchItems (underRoot []) :=
  ⟨(empty_search_no_error (underRoot [("warning", .text "ignoring title")])).2.2.2.2
      (stubEnv (some (underRoot [("warning", .text "ignoring title")]))) "naruto"
      (by decide) rfl,
   (empty_search_no_error (underRoot [("warning", .text "ignoring title")])).2.1 rfl rfl,
   (empty_search_no_error (underRoot [])).2.2.2.1
      (underRoot [("warning", .text "ignoring title")]) [] [("warning", .text "ignoring title")]
      rfl rfl (by
        intro k hk
        have : (k == "warning") = false := by simpa using hk
        simp [List.lookup, this])⟩

/-- C2, as stated, fails: for the empty text as item node, the bare node under the anime
key yields no item while the one-element sequence yields one. -/
theorem bare_empty_text_differs :
    (searchItems (underRoot [("anime", .text "")])).length = 0 ∧
    (searchItems (underRoot [("anime", .arr [.text ""])])).length = 1 :=
  ⟨rfl, rfl⟩

/-- C2, amended: for every item node other than the empty text, the bare node under the
anime (respectively manga) key yields the same result as the one-element sequence, and
the item the node yields alone is the item found at its position when it is a member of
a longer sequence: its id and name with the type of the key. -/
theorem cardinality_invariance (x : Node) (rest : List (String × Node)) (pre post : List Node)
    (hnode : x.isArray = false) (hne : x ≠ .text "") :
    searchItems (underRoot (("anime", x) :: rest)) =
      searchItems (underRoot (("anime", .arr [x]) :: rest)) ∧
    searchItems (underRoot (("manga", x) :: rest)) =
      searchItems (underRoot (("manga", .arr [x]) :: rest)) ∧
    (searchItems (underRoot (("anime", x) :: rest)))[0]? =
      some ⟨x.get "id", x.get "name", "anime"⟩ ∧
    (searchItems (underRoot (("anime", .arr (pre ++ x :: post)) :: rest)))[pre.length]? =
      some ⟨x.get "id", x.get "name", "anime"⟩ ∧
    (searchItems (underRoot (("manga", x) :: rest)))[(animeList (.obj rest)).length]? =
      some ⟨x.get "id", x.get "name", "manga"⟩ ∧
    (searchItems (underRoot (("manga", .arr (pre ++ x :: post)) :: rest)))[
        (animeList (.obj rest)).length + pre.length]? =
      some ⟨x.get "id", x.get "name", "manga"⟩ := by
  have ht : x.truthy = true := truthy_of_ne_empty_text x hne
  have hs : x.arrayOrSingleton = [x] := arrayOrSingleton_of_not_isArray x hnode
  have ha : ∀ xs : List Node, (Node.arr xs).truthy = true := fun _ => rfl
  have hl : ∀ xs : List Node, (Node.arr xs).arrayOrSingleton = xs := fun _ => rfl
  simp only [searchItems_anime_first, searchItems_manga_first, ht, hs, ha, hl, if_true]
  refine ⟨trivial, trivial, ?_, ?_, ?_, ?_⟩
  · simp [toSearchItem]
  · rw [List.getElem?_append_left (by simp), getElem?_map_middle]
    rfl
  · rw [List.getElem?_append_right (by simp)]
    simp [toSearchItem]
  · rw [List.getElem?_append_right (by simp)]
    simp only [List.length_map, Nat.add_sub_cancel_left]
    rw [getElem?_map_middle]
    rfl

/-- Instance of the amended C2: a bare anime node and the same node as second member. -/
theorem cardinality_invariance_witness :
    searchItems (underRoot [("anime", .obj [("id", .text "7"), ("name", .text "Monster")])]) =
      searchItems
        (underRoot [("anime", .arr [.obj [("id", .text "7"), ("name", .text "Monster")]])]) ∧
    (searchItems (underRoot [("anime",
        .arr ([.obj [("id", .text "1")]] ++
          .obj [("id", .text "7"), ("name", .text "Monster")] :: []))]))[1]? =
      some ⟨some (.text "7"), some (.text "Monster"), "anime"⟩ :=
  ⟨(cardinality_invariance (.obj [("id", .text "7"), ("name", .text "Monster")]) [] [] []
      rfl (by intro h; cases h)).1,
   (cardinality_invariance (.obj [("id", .text "7"), ("name", .text "Monster")]) []
      [.obj [("id", .text "1")]] [] rfl (by intro h; cases h)).2.2.2.1⟩

end AnimeNewsApi
